import Mathlib

/-!
Verification of the N-API bridging layer of aws-crt-nodejs
(src/source/module.c): value marshaling between host-managed values and
native byte buffers, the threadsafe callback-dispatch mechanism, the
allocator indirection, and the process-context lifecycle.

The C code is embedded shallowly: pure computations become Lean functions,
out-parameters become explicit state passing, and the host engine (Node's
N-API implementation) and the aws-c-common helpers are modelled as explicit
definitions, each marked as such in its doc comment.  AWS_NAPI_CALL expands
to "run the call; on a non-ok status run the handler block", and
AWS_NAPI_ENSURE / AWS_FATAL_ASSERT expand to "fatally terminate the process
on a non-ok status"; the `Outcome` type below makes the fatal case explicit.
-/

/-- Status codes of the host engine (the napi_status enumeration),
restricted to the constructors this development needs. -/
inductive NapiStatus
  | ok
  | invalid_arg
  | generic_failure
  | pending_exception
  | queue_full
  deriving DecidableEq

/-- Result of a step guarded by AWS_FATAL_ASSERT or AWS_NAPI_ENSURE:
`fatal` models process termination, `ret a` a normal return of `a`. -/
inductive Outcome (α : Type)
  | fatal
  | ret (a : α)
  deriving DecidableEq

/-- Provenance of the memory an aws_byte_buf's buffer pointer designates:
the null pointer, memory obtained from the native allocator (owned by the
buffer), or the backing store of a host-managed (garbage-collected) value
(borrowed). -/
inductive BufPtr
  | nullPtr
  | nativeMem
  | hostMem
  deriving DecidableEq

/-- Shallow model of struct aws_byte_buf: the designated bytes, the recorded
length and capacity, whether the allocator field is non-null, and the
provenance of the buffer pointer.  aws-c-common's aws_byte_buf_clean_up
frees the pointed-to memory exactly when the allocator field and the buffer
pointer are both non-null, so the allocator flag is the owning flag. -/
structure ByteBuf where
  buffer : List Nat
  len : Nat
  capacity : Nat
  allocator : Bool
  ptr : BufPtr
  deriving DecidableEq

/-- A zeroed aws_byte_buf, used as a concrete initial buffer state. -/
def bufZero : ByteBuf :=
  { buffer := [], len := 0, capacity := 0, allocator := false, ptr := BufPtr.nullPtr }

/-- Model of aws-c-common aws_byte_buf_init: acquires `cap` bytes from the
allocator and records the allocator (making the buffer owned) and a zero
length.  Allocation is modelled as succeeding; module.c line 82 turns an
allocation failure into napi_generic_failure. -/
def aws_byte_buf_init (cap : Nat) : ByteBuf :=
  { buffer := List.replicate cap 0, len := 0, capacity := cap,
    allocator := true, ptr := BufPtr.nativeMem }

/-- Result of aws_byte_buf_clean_up: whether the buffer pointer was freed,
whether that pointer designated host-managed (borrowed) memory, and the
zeroed buffer structure. -/
structure CleanupResult where
  freed : Bool
  freedHostMem : Bool
  buf : ByteBuf
  deriving DecidableEq

/-- Model of aws-c-common aws_byte_buf_clean_up: releases the pointed-to
memory exactly when the allocator field and the buffer pointer are both
non-null, then zeroes the structure. -/
def aws_byte_buf_clean_up (b : ByteBuf) : CleanupResult :=
  { freed := b.allocator && b.ptr != BufPtr.nullPtr,
    freedHostMem := b.allocator && b.ptr == BufPtr.hostMem,
    buf := bufZero }

/-- Model of struct aws_byte_cursor: the designated byte sequence. -/
structure ByteCursor where
  bytes : List Nat
  deriving DecidableEq

/-- Model of aws-c-common aws_byte_cursor_from_buf: the first len bytes of
the buffer. -/
def aws_byte_cursor_from_buf (b : ByteBuf) : ByteCursor :=
  { bytes := b.buffer.take b.len }

/-- Model of aws-c-common aws_byte_buf_write_from_whole_cursor: when the
remaining capacity allows, appends the cursor's bytes at the buffer's write
position and advances the length; otherwise fails (returns false in C). -/
def aws_byte_buf_write_from_whole_cursor (b : ByteBuf) (cur : ByteCursor) :
    Option ByteBuf :=
  if b.len + cur.bytes.length ≤ b.capacity then
    some { b with
      buffer := b.buffer.take b.len ++ cur.bytes ++ b.buffer.drop (b.len + cur.bytes.length),
      len := b.len + cur.bytes.length }
  else none

/-- The napi runtime value kinds (the napi_valuetype enumeration). -/
inductive NapiValuetype
  | vt_undefined
  | vt_null
  | vt_boolean
  | vt_number
  | vt_string
  | vt_symbol
  | vt_object
  | vt_function
  | vt_external
  | vt_bigint
  deriving DecidableEq

/-- Shallow model of a host-managed (JavaScript) value, as far as the
marshaling code discriminates: a text string carries its decoded UTF-8
bytes; an ArrayBuffer, DataView or typed array carries the bytes of its
backing store, a typed array additionally its napi_typedarray_type value
(as the raw numeric value the C switch inspects) and its element count; the
remaining constructors are the unsupported runtime kinds. -/
inductive HostValue
  | text (bytes : List Nat)
  | arrayBuffer (bytes : List Nat)
  | dataView (bytes : List Nat)
  | typedArray (arrayType : Nat) (elementCount : Nat) (backing : List Nat)
  | plainObject
  | number
  | boolean
  | nullValue
  | undefinedValue
  | functionValue
  | symbolValue
  | bigintValue
  | externalValue
  deriving DecidableEq

/-- Model of the engine's napi_typeof on these host values. -/
def napi_typeof : HostValue → NapiValuetype
  | .text _ => .vt_string
  | .arrayBuffer _ => .vt_object
  | .dataView _ => .vt_object
  | .typedArray _ _ _ => .vt_object
  | .plainObject => .vt_object
  | .number => .vt_number
  | .boolean => .vt_boolean
  | .nullValue => .vt_null
  | .undefinedValue => .vt_undefined
  | .functionValue => .vt_function
  | .symbolValue => .vt_symbol
  | .bigintValue => .vt_bigint
  | .externalValue => .vt_external

/-- Model of the engine's napi_is_arraybuffer. -/
def napi_is_arraybuffer : HostValue → Bool
  | .arrayBuffer _ => true
  | _ => false

/-- Model of the engine's napi_is_dataview. -/
def napi_is_dataview : HostValue → Bool
  | .dataView _ => true
  | _ => false

/-- Model of the engine's napi_is_typedarray. -/
def napi_is_typedarray : HostValue → Bool
  | .typedArray _ _ _ => true
  | _ => false

/-- The napi_typedarray_type values, by their numeric value in the
enumeration; the C switch in module.c writes the two 64-bit integer kinds
as the raw values 9 and 10. -/
def napi_int8_array : Nat := 0

/-- napi_typedarray_type value of Uint8Array. -/
def napi_uint8_array : Nat := 1

/-- napi_typedarray_type value of Uint8ClampedArray. -/
def napi_uint8_clamped_array : Nat := 2

/-- napi_typedarray_type value of Int16Array. -/
def napi_int16_array : Nat := 3

/-- napi_typedarray_type value of Uint16Array. -/
def napi_uint16_array : Nat := 4

/-- napi_typedarray_type value of Int32Array. -/
def napi_int32_array : Nat := 5

/-- napi_typedarray_type value of Uint32Array. -/
def napi_uint32_array : Nat := 6

/-- napi_typedarray_type value of Float32Array. -/
def napi_float32_array : Nat := 7

/-- napi_typedarray_type value of Float64Array. -/
def napi_float64_array : Nat := 8

/-- napi_typedarray_type value of BigInt64Array. -/
def napi_bigint64_array : Nat := 9

/-- napi_typedarray_type value of BigUint64Array. -/
def napi_biguint64_array : Nat := 10

/-- The element-size switch of aws_byte_buf_init_from_napi (module.c lines
122-149): element_size starts at 0 and is assigned only in the listed
cases, so any napi_typedarray_type value outside them leaves it 0. -/
def s_element_size (type_hack : Nat) : Nat :=
  if type_hack = napi_int8_array ∨ type_hack = napi_uint8_array ∨
      type_hack = napi_uint8_clamped_array then 1
  else if type_hack = napi_int16_array ∨ type_hack = napi_uint16_array then 2
  else if type_hack = napi_int32_array ∨ type_hack = napi_uint32_array ∨
      type_hack = napi_float32_array then 4
  else if type_hack = napi_float64_array ∨ type_hack = 9 ∨ type_hack = 10 then 8
  else 0

/-- Embedding of aws_byte_buf_init_from_napi (module.c lines 69-158).  In C
the buffer is an out-parameter that some paths only partially assign, so the
embedding takes the buffer's previous contents and returns the napi_status
together with the new contents.  The dispatch follows the source: a value of
runtime kind string takes the copying path; a value of kind object is tried
against napi_is_arraybuffer, napi_is_dataview and napi_is_typedarray in that
order (the three borrow paths, which never touch the allocator field); every
other value reaches `return napi_invalid_arg` with the buffer untouched.
The engine calls are modelled as succeeding on well-formed host values. -/
def aws_byte_buf_init_from_napi (buf : ByteBuf) (node_str : HostValue) :
    NapiStatus × ByteBuf :=
  match node_str with
  | .text bytes =>
      -- napi_get_value_string_utf8 length probe, aws_byte_buf_init of
      -- length + 1 (Node requires the null terminator to be written), then
      -- the copy writes the decoded bytes plus the terminator and stores
      -- the decoded length in buf->len.
      let b := aws_byte_buf_init (bytes.length + 1)
      (NapiStatus.ok, { b with buffer := bytes ++ [0], len := bytes.length })
  | .arrayBuffer bytes =>
      -- napi_get_arraybuffer_info sets buffer and len; capacity := len.
      (NapiStatus.ok, { buf with buffer := bytes, len := bytes.length,
                                 capacity := bytes.length, ptr := BufPtr.hostMem })
  | .dataView bytes =>
      -- napi_get_dataview_info sets len and buffer; capacity := len.
      (NapiStatus.ok, { buf with buffer := bytes, len := bytes.length,
                                 capacity := bytes.length, ptr := BufPtr.hostMem })
  | .typedArray arrayType elementCount backing =>
      -- napi_get_typedarray_info sets array_type, length and buffer;
      -- buf->len = length * element_size; capacity := len.
      (NapiStatus.ok, { buf with buffer := backing,
                                 len := elementCount * s_element_size arrayType,
                                 capacity := elementCount * s_element_size arrayType,
                                 ptr := BufPtr.hostMem })
  | _ => (NapiStatus.invalid_arg, buf)

/-- Result of aws_string_new_from_napi: the created string's bytes (none
when the buffer conversion failed) and what the aws_byte_buf_clean_up of
the temporary buffer freed. -/
structure StringFromNapiResult where
  string : Option (List Nat)
  cleanupFreed : Bool
  cleanupFreedHostMem : Bool
  deriving DecidableEq

/-- Embedding of aws_string_new_from_napi (module.c lines 160-170).  The C
declares `struct aws_byte_buf temp_buf;` without initializing it, so the
temporary buffer's previous contents — in particular its allocator field,
which the borrow paths of aws_byte_buf_init_from_napi never assign — are
whatever happens to be on the stack; they are the parameter temp_buf. -/
def aws_string_new_from_napi (temp_buf : ByteBuf) (node_str : HostValue) :
    StringFromNapiResult :=
  match aws_byte_buf_init_from_napi temp_buf node_str with
  | (NapiStatus.ok, b) =>
      -- aws_string_new_from_array copies the first len bytes.
      let cleanup := aws_byte_buf_clean_up b
      { string := some (b.buffer.take b.len),
        cleanupFreed := cleanup.freed,
        cleanupFreedHostMem := cleanup.freedHostMem }
  | (_, _) =>
      { string := none, cleanupFreed := false, cleanupFreedHostMem := false }

/-- Embedding of aws_napi_create_dataview_from_byte_cursor (module.c lines
172-190): napi_create_arraybuffer allocates a fresh zero-filled host buffer
of the cursor's length, aws_byte_buf_from_empty_array wraps it (length 0,
capacity cur.len, no allocator), the bytes are copied in through
aws_byte_buf_write_from_whole_cursor, and napi_create_dataview wraps the
whole ArrayBuffer (offset 0, length cur.len). -/
def aws_napi_create_dataview_from_byte_cursor (cur : ByteCursor) :
    NapiStatus × Option HostValue :=
  let data := List.replicate cur.bytes.length 0
  let arraybuffer_buf : ByteBuf :=
    { buffer := data, len := 0, capacity := cur.bytes.length,
      allocator := false, ptr := BufPtr.hostMem }
  match aws_byte_buf_write_from_whole_cursor arraybuffer_buf cur with
  | none => (NapiStatus.generic_failure, none)
  | some written =>
      (NapiStatus.ok, some (HostValue.dataView (written.buffer.take cur.bytes.length)))

/-- to_native_buffer followed by to_host_binary_view: the round trip of the
spec's property 1, composed through aws_byte_cursor_from_buf. -/
def bufRoundTrip (buf0 : ByteBuf) (v : HostValue) : NapiStatus × Option HostValue :=
  match aws_byte_buf_init_from_napi buf0 v with
  | (NapiStatus.ok, b) =>
      aws_napi_create_dataview_from_byte_cursor (aws_byte_cursor_from_buf b)
  | (st, _) => (st, none)

/-- The host-value kinds claim C1 quantifies over: text, ArrayBuffer,
DataView, and typed arrays of a handled element kind whose backing store
holds the element_count times element_size bytes a real typed array has. -/
def SupportedForRoundTrip : HostValue → Prop
  | .text _ => True
  | .arrayBuffer _ => True
  | .dataView _ => True
  | .typedArray ty c backing => ty ≤ 10 ∧ backing.length = c * s_element_size ty
  | _ => False

/-- The byte sequence a host value carries (empty for non-binary kinds). -/
def hostBytes : HostValue → List Nat
  | .text bytes => bytes
  | .arrayBuffer bytes => bytes
  | .dataView bytes => bytes
  | .typedArray _ _ backing => backing
  | _ => []

/-- The runtime kinds aws_byte_buf_init_from_napi rejects: not a string and
not recognized by any of the three object probes. -/
def UnsupportedForBuf (v : HostValue) : Prop :=
  napi_typeof v ≠ NapiValuetype.vt_string ∧
  napi_is_arraybuffer v = false ∧
  napi_is_dataview v = false ∧
  napi_is_typedarray v = false

/-- Model of the host engine's threadsafe-function state: the current
reference (thread) count, whether the handle has been unreferenced from the
event loop, and how many invocations have been queued. -/
structure TsfnState where
  refs : Nat
  unreffed : Bool
  queued : Nat
  deriving DecidableEq

/-- The napi_threadsafe_function_release_mode enumeration
(napi_tsfn_release / napi_tsfn_abort). -/
inductive TsfnReleaseMode
  | release
  | abort
  deriving DecidableEq

/-- Model of the engine's napi_acquire_threadsafe_function: a null handle is
reported as invalid_arg (the engine never blindly dereferences it),
otherwise the reference count is incremented. -/
def napi_acquire_threadsafe_function :
    Option TsfnState → NapiStatus × Option TsfnState
  | none => (NapiStatus.invalid_arg, none)
  | some t => (NapiStatus.ok, some { t with refs := t.refs + 1 })

/-- Model of the engine's napi_release_threadsafe_function: a null handle or
a zero reference count is invalid_arg, otherwise the count is decremented
(the abort mode additionally starts closing the queue, which no property
here depends on). -/
def napi_release_threadsafe_function (f : Option TsfnState)
    (mode : TsfnReleaseMode) : NapiStatus × Option TsfnState :=
  match mode, f with
  | _, none => (NapiStatus.invalid_arg, none)
  | _, some t =>
      if t.refs = 0 then (NapiStatus.invalid_arg, some t)
      else (NapiStatus.ok, some { t with refs := t.refs - 1 })

/-- Model of the engine's napi_unref_threadsafe_function: a null handle is
invalid_arg, otherwise the handle stops pinning the event loop. -/
def napi_unref_threadsafe_function :
    Option TsfnState → NapiStatus × Option TsfnState
  | none => (NapiStatus.invalid_arg, none)
  | some t => (NapiStatus.ok, some { t with unreffed := true })

/-- Model of the engine's napi_call_threadsafe_function in nonblocking mode
on an unbounded queue (the handles here are created with max_queue_size 0):
a null handle is invalid_arg, otherwise the invocation is enqueued. -/
def napi_call_threadsafe_function :
    Option TsfnState → NapiStatus × Option TsfnState
  | none => (NapiStatus.invalid_arg, none)
  | some t => (NapiStatus.ok, some { t with queued := t.queued + 1 })

/-- Embedding of aws_napi_acquire_threadsafe_function (module.c 422-427):
forwards non-null handles to the engine, and is a success no-op on null. -/
def aws_napi_acquire_threadsafe_function (f : Option TsfnState) :
    NapiStatus × Option TsfnState :=
  match f with
  | some t => napi_acquire_threadsafe_function (some t)
  | none => (NapiStatus.ok, none)

/-- Embedding of aws_napi_release_threadsafe_function (module.c 413-420):
forwards non-null handles to the engine, and is a success no-op on null. -/
def aws_napi_release_threadsafe_function (f : Option TsfnState)
    (mode : TsfnReleaseMode) : NapiStatus × Option TsfnState :=
  match f with
  | some t => napi_release_threadsafe_function (some t) mode
  | none => (NapiStatus.ok, none)

/-- Embedding of aws_napi_unref_threadsafe_function (module.c 429-434):
forwards non-null handles to the engine, and is a success no-op on null
(the napi_env argument is only forwarded and is dropped here). -/
def aws_napi_unref_threadsafe_function (f : Option TsfnState) :
    NapiStatus × Option TsfnState :=
  match f with
  | some t => napi_unref_threadsafe_function (some t)
  | none => (NapiStatus.ok, none)

/-- Embedding of aws_napi_queue_threadsafe_function (module.c 436-440): the
reference count is bumped through napi_acquire_threadsafe_function wrapped
in AWS_NAPI_ENSURE — which fatally asserts on any non-ok status — and the
call is then enqueued nonblocking.  Unlike the three wrappers above there
is no null check before the engine calls. -/
def aws_napi_queue_threadsafe_function (f : Option TsfnState) :
    Outcome (NapiStatus × Option TsfnState) :=
  match napi_acquire_threadsafe_function f with
  | (NapiStatus.ok, f1) => Outcome.ret (napi_call_threadsafe_function f1)
  | (_, _) => Outcome.fatal

/-- What can be extracted from the pending host exception: whether
napi_is_error holds of it, and the results of the fallible
aws_string_new_from_napi extractions of its message field, its stack field,
and its coerced string form (none models a failed extraction, e.g. an
allocation failure inside the marshaling). -/
structure PendingExn where
  is_error : Bool
  message : Option (List Nat)
  stack : Option (List Nat)
  coerced : Option (List Nat)
  deriving DecidableEq

/-- The host-environment state s_handle_failed_callback consults: the
pending exception if one is pending, the engine's extended error info
(engine error code, napi error code, error message), and the result of
extracting the string form of the function being invoked. -/
structure CallbackEnv where
  pendingExn : Option PendingExn
  engineErrorCode : Nat
  errorCode : NapiStatus
  errorMessage : List Nat
  functionStr : Option (List Nat)
  deriving DecidableEq

/-- The error-log entries s_handle_failed_callback can emit, one
constructor per AWS_NAPI_LOGF_ERROR site (module.c 296-375). -/
inductive LogEvent
  | extendedError (engineErrorCode : Nat) (errorCode : NapiStatus)
      (errorMessage : List Nat)
  | calling (functionStr : List Nat)
  | errorMsg (message : List Nat)
  | msgExtractFailed
  | stackTrace (stack : List Nat)
  | stackExtractFailed
  | coercedExtractFailed
  deriving DecidableEq

/-- The "Calling %s" log entry of module.c 326-328: emitted only when
extracting the function's string form succeeded; the if statement has no
else branch, so a failed extraction emits nothing and control continues. -/
def callingLog (env : CallbackEnv) : List LogEvent :=
  match env.functionStr with
  | some f => [LogEvent.calling f]
  | none => []

/-- Embedding of s_handle_failed_callback (module.c 296-375): returns the
emitted log entries and the environment after the pending exception (if
any) has been captured and cleared.  The local initialization of
pending_exception from the reason argument is dead, because
napi_is_exception_pending overwrites it unconditionally. -/
def s_handle_failed_callback (env : CallbackEnv) : List LogEvent × CallbackEnv :=
  match env.pendingExn with
  | none =>
      ([LogEvent.extendedError env.engineErrorCode env.errorCode env.errorMessage],
       env)
  | some exn =>
      let env1 := { env with pendingExn := none }
      if exn.is_error then
        match exn.message with
        | none => (callingLog env ++ [LogEvent.msgExtractFailed], env1)
        | some m =>
            match exn.stack with
            | none =>
                (callingLog env ++ [LogEvent.errorMsg m, LogEvent.stackExtractFailed],
                 env1)
            | some st =>
                (callingLog env ++ [LogEvent.errorMsg m, LogEvent.stackTrace st],
                 env1)
      else
        match exn.coerced with
        | none => (callingLog env ++ [LogEvent.coercedExtractFailed], env1)
        | some c => (callingLog env ++ [LogEvent.errorMsg c], env1)

/-- Output of aws_napi_dispatch_threadsafe_function: the returned status,
the receiver actually passed to the call, the log entries emitted on
failure, the threadsafe-function handle after the unconditional release,
and the environment after failure handling. -/
structure DispatchResult where
  status : NapiStatus
  receiver : HostValue
  logs : List LogEvent
  tsfn : Option TsfnState
  env : CallbackEnv
  deriving DecidableEq

/-- Embedding of aws_napi_dispatch_threadsafe_function (module.c 377-396).
A null this_ptr is replaced by the undefined value; the outcome of
napi_call_function — determined by the host callable — is the parameter
call_outcome; a non-ok outcome runs s_handle_failed_callback; and on every
path exactly one napi_release_threadsafe_function(tsfn, napi_tsfn_release)
runs before the status — the call status when it is non-ok, otherwise the
release status — is returned. -/
def aws_napi_dispatch_threadsafe_function (env : CallbackEnv)
    (tsfn : Option TsfnState) (this_ptr : Option HostValue)
    (call_outcome : NapiStatus) : DispatchResult :=
  let receiver := match this_ptr with
    | none => HostValue.undefinedValue
    | some v => v
  match call_outcome with
  | NapiStatus.ok =>
      let rel := napi_release_threadsafe_function tsfn TsfnReleaseMode.release
      { status := rel.1, receiver := receiver, logs := [], tsfn := rel.2, env := env }
  | st =>
      let handled := s_handle_failed_callback env
      let rel := napi_release_threadsafe_function tsfn TsfnReleaseMode.release
      { status := st, receiver := receiver, logs := handled.1, tsfn := rel.2,
        env := handled.2 }

/-- The process-wide allocator: either the process default allocator or the
tracing wrapper produced by aws_mem_tracer_new. -/
inductive AwsAllocator
  | defaultAlloc
  | memTracer (base : AwsAllocator) (level : Nat) (framesPerStack : Nat)
  deriving DecidableEq

/-- Model of aws-c-common aws_mem_tracer_new: always allocates and returns
a wrapper allocator around `base`; the trace level only gates what the
wrapper's vtable tracks (level 0 tracks nothing), it does not short-circuit
the wrapping. -/
def aws_mem_tracer_new (base : AwsAllocator) (level : Nat)
    (framesPerStack : Nat) : AwsAllocator :=
  AwsAllocator.memTracer base level framesPerStack

/-- What resolving the allocator produced: the allocator and whether the
out-of-range warning was written to the standard error stream. -/
structure AllocResolution where
  alloc : AwsAllocator
  warnedStderr : Bool
  deriving DecidableEq

/-- Embedding of aws_napi_get_allocator (module.c 444-463).  `cached` is the
s_allocator static (returned as-is when already resolved); `env_level` is
the AWS_CRT_MEMORY_TRACING environment variable, already passed through
atoi, with none meaning unset or unreadable.  A level outside
[AWS_MEMTRACE_NONE, AWS_MEMTRACE_STACKS] = [0, 2] is reported on stderr
and replaced by AWS_MEMTRACE_NONE; the result is then always
aws_mem_tracer_new(aws_default_allocator(), NULL, level, 16). -/
def aws_napi_get_allocator (cached : Option AwsAllocator)
    (env_level : Option Int) : AllocResolution :=
  match cached with
  | some a => { alloc := a, warnedStderr := false }
  | none =>
      match env_level with
      | none => { alloc := AwsAllocator.defaultAlloc, warnedStderr := false }
      | some level0 =>
          let warned := decide (level0 < 0 ∨ 2 < level0)
          let level : Int := if level0 < 0 ∨ 2 < level0 then 0 else level0
          { alloc := aws_mem_tracer_new AwsAllocator.defaultAlloc level.toNat 16,
            warnedStderr := warned }

/-- The process-wide globals NAPI_MODULE_INIT fatally asserts to be null
before creating each of them (true models a non-null pointer). -/
structure CrtGlobals where
  elg : Bool
  resolver : Bool
  bootstrap : Bool
  deriving DecidableEq

/-- Embedding of the shared-resource creation block of NAPI_MODULE_INIT
(module.c 603-629): AWS_FATAL_ASSERT(s_node_uv_elg == NULL), create the
event-loop group, AWS_FATAL_ASSERT(s_default_host_resolver == NULL),
create the resolver, AWS_FATAL_ASSERT(s_default_client_bootstrap == NULL),
create the bootstrap; each creation is modelled as succeeding (a failed
creation is itself a fatal assertion in the source). -/
def napi_module_init_globals (g : CrtGlobals) : Outcome CrtGlobals :=
  if g.elg then Outcome.fatal
  else
    let g1 : CrtGlobals := { g with elg := true }
    if g1.resolver then Outcome.fatal
    else
      let g2 : CrtGlobals := { g1 with resolver := true }
      if g2.bootstrap then Outcome.fatal
      else Outcome.ret { g2 with bootstrap := true }

/-- The teardown steps of s_napi_context_finalize, one constructor per call
in the function body (module.c 520-544). -/
inductive TeardownEvent
  | releaseBootstrap
  | releaseResolver
  | releaseElg
  | joinManagedThreads
  | unregisterLogSubjects
  | unregisterErrors
  | authCleanUp
  | mqttCleanUp
  | destroyLogger
  | releaseCtxMem
  | destroyTracer
  deriving DecidableEq

/-- Embedding of s_napi_context_finalize (module.c 520-544) as the sequence
of teardown steps it performs, in source order; the tracer destruction
happens only when the context's allocator is not the default allocator. -/
def s_napi_context_finalize (allocator_is_default : Bool) : List TeardownEvent :=
  [TeardownEvent.releaseBootstrap, TeardownEvent.releaseResolver,
   TeardownEvent.releaseElg, TeardownEvent.joinManagedThreads,
   TeardownEvent.unregisterLogSubjects, TeardownEvent.unregisterErrors,
   TeardownEvent.authCleanUp, TeardownEvent.mqttCleanUp,
   TeardownEvent.destroyLogger, TeardownEvent.releaseCtxMem] ++
  (if allocator_is_default then [] else [TeardownEvent.destroyTracer])

/-- Claim C1: for every host value whose runtime kind is text string,
ArrayBuffer, DataView, or a handled typed-array element kind, converting it
to a native byte buffer with aws_byte_buf_init_from_napi and then back to a
host binary view with aws_napi_create_dataview_from_byte_cursor yields
exactly the original byte sequence; a text input's native buffer
additionally carries exactly one trailing terminator byte located beyond
the recorded length, and the recorded length equals the decoded text
length. -/
theorem claim_C1 (buf0 : ByteBuf) (v : HostValue) (h : SupportedForRoundTrip v) :
    bufRoundTrip buf0 v = (NapiStatus.ok, some (HostValue.dataView (hostBytes v))) ∧
    (∀ bytes, v = HostValue.text bytes →
      (aws_byte_buf_init_from_napi buf0 v).2.len = bytes.length ∧
      (aws_byte_buf_init_from_napi buf0 v).2.buffer = bytes ++ [0]) := by
  cases v with
  | text bytes =>
      refine ⟨?_, ?_⟩
      · simp [bufRoundTrip, aws_byte_buf_init_from_napi, aws_byte_buf_init,
          aws_byte_cursor_from_buf, aws_napi_create_dataview_from_byte_cursor,
          aws_byte_buf_write_from_whole_cursor, hostBytes, List.take_left]
      · intro bs hv
        cases hv
        simp [aws_byte_buf_init_from_napi, aws_byte_buf_init]
  | arrayBuffer bytes =>
      refine ⟨?_, by intro bs hv; cases hv⟩
      simp [bufRoundTrip, aws_byte_buf_init_from_napi,
        aws_byte_cursor_from_buf, aws_napi_create_dataview_from_byte_cursor,
        aws_byte_buf_write_from_whole_cursor, hostBytes, List.take_length]
  | dataView bytes =>
      refine ⟨?_, by intro bs hv; cases hv⟩
      simp [bufRoundTrip, aws_byte_buf_init_from_napi,
        aws_byte_cursor_from_buf, aws_napi_create_dataview_from_byte_cursor,
        aws_byte_buf_write_from_whole_cursor, hostBytes, List.take_length]
  | typedArray ty c backing =>
      obtain ⟨-, hlen⟩ := h
      refine ⟨?_, by intro bs hv; cases hv⟩
      simp [bufRoundTrip, aws_byte_buf_init_from_napi,
        aws_byte_cursor_from_buf, aws_napi_create_dataview_from_byte_cursor,
        aws_byte_buf_write_from_whole_cursor, hostBytes, ← hlen,
        List.take_length]
  | plainObject => exact absurd h (by simp [SupportedForRoundTrip])
  | number => exact absurd h (by simp [SupportedForRoundTrip])
  | boolean => exact absurd h (by simp [SupportedForRoundTrip])
  | nullValue => exact absurd h (by simp [SupportedForRoundTrip])
  | undefinedValue => exact absurd h (by simp [SupportedForRoundTrip])
  | functionValue => exact absurd h (by simp [SupportedForRoundTrip])
  | symbolValue => exact absurd h (by simp [SupportedForRoundTrip])
  | bigintValue => exact absurd h (by simp [SupportedForRoundTrip])
  | externalValue => exact absurd h (by simp [SupportedForRoundTrip])

/-- Witness for claim C1 at the two-byte text value [104, 105]: the round
trip returns those bytes, and the native buffer is [104, 105, 0] with
recorded length 2. -/
theorem claim_C1_witness :
    bufRoundTrip bufZero (HostValue.text [104, 105]) =
      (NapiStatus.ok, some (HostValue.dataView [104, 105])) ∧
    (aws_byte_buf_init_from_napi bufZero (HostValue.text [104, 105])).2.len = 2 ∧
    (aws_byte_buf_init_from_napi bufZero (HostValue.text [104, 105])).2.buffer =
      [104, 105, 0] := by
  have h := claim_C1 bufZero (HostValue.text [104, 105])
    (by simp [SupportedForRoundTrip])
  exact ⟨h.1, (h.2 [104, 105] rfl).1, (h.2 [104, 105] rfl).2⟩

/-- Claim C7: aws_byte_buf_init_from_napi fails with napi_invalid_arg for
every host value whose runtime kind is not a text string, ArrayBuffer,
DataView, or typed array, and leaves the buffer untouched. -/
theorem claim_C7 (buf0 : ByteBuf) (v : HostValue) (h : UnsupportedForBuf v) :
    aws_byte_buf_init_from_napi buf0 v = (NapiStatus.invalid_arg, buf0) := by
  cases v with
  | text bytes => exact absurd h.1 (by simp [napi_typeof])
  | arrayBuffer bytes => exact absurd h.2.1 (by simp [napi_is_arraybuffer])
  | dataView bytes => exact absurd h.2.2.1 (by simp [napi_is_dataview])
  | typedArray ty c backing => exact absurd h.2.2.2 (by simp [napi_is_typedarray])
  | plainObject => rfl
  | number => rfl
  | boolean => rfl
  | nullValue => rfl
  | undefinedValue => rfl
  | functionValue => rfl
  | symbolValue => rfl
  | bigintValue => rfl
  | externalValue => rfl

/-- Witness for claim C7 at a number value: the conversion reports
napi_invalid_arg and the buffer is unchanged. -/
theorem claim_C7_witness :
    aws_byte_buf_init_from_napi bufZero HostValue.number =
      (NapiStatus.invalid_arg, bufZero) :=
  claim_C7 bufZero HostValue.number
    (by refine ⟨?_, rfl, rfl, rfl⟩; simp [napi_typeof])

/-- Claim C8: for every typed-array input of a handled element kind, the
produced buffer borrows the array's backing storage (the buffer points at
the backing bytes and the allocator field is not set, so the buffer does
not own them), its length is element_count times element_size, its capacity
equals its length, and the element sizes are 1 for int8/uint8/uint8-clamped,
2 for int16/uint16, 4 for int32/uint32/float32, and 8 for float64 and the
two 64-bit integer kinds. -/
theorem claim_C8 (buf0 : ByteBuf) (ty count : Nat) (backing : List Nat)
    (h : ty ≤ 10) :
    aws_byte_buf_init_from_napi buf0 (HostValue.typedArray ty count backing) =
      (NapiStatus.ok,
        { buf0 with buffer := backing,
                    len := count * s_element_size ty,
                    capacity := count * s_element_size ty,
                    ptr := BufPtr.hostMem }) ∧
    (aws_byte_buf_init_from_napi buf0
        (HostValue.typedArray ty count backing)).2.allocator = buf0.allocator ∧
    s_element_size napi_int8_array = 1 ∧
    s_element_size napi_uint8_array = 1 ∧
    s_element_size napi_uint8_clamped_array = 1 ∧
    s_element_size napi_int16_array = 2 ∧
    s_element_size napi_uint16_array = 2 ∧
    s_element_size napi_int32_array = 4 ∧
    s_element_size napi_uint32_array = 4 ∧
    s_element_size napi_float32_array = 4 ∧
    s_element_size napi_float64_array = 8 ∧
    s_element_size napi_bigint64_array = 8 ∧
    s_element_size napi_biguint64_array = 8 := by
  refine ⟨rfl, rfl, ?_, ?_, ?_, ?_, ?_, ?_, ?_, ?_, ?_, ?_, ?_⟩ <;> decide

/-- Witness for claim C8 at a three-element Int16Array: length and capacity
are 6 bytes and the buffer is the borrowed backing store. -/
theorem claim_C8_witness :
    aws_byte_buf_init_from_napi bufZero
        (HostValue.typedArray napi_int16_array 3 [1, 2, 3, 4, 5, 6]) =
      (NapiStatus.ok,
        { buffer := [1, 2, 3, 4, 5, 6], len := 6, capacity := 6,
          allocator := false, ptr := BufPtr.hostMem }) := by
  have h := (claim_C8 bufZero napi_int16_array 3 [1, 2, 3, 4, 5, 6]
    (by decide)).1
  simpa [bufZero] using h

/-- Claim C10: for every typed-array input whose napi_typedarray_type value
is not one of the eleven handled kinds, aws_byte_buf_init_from_napi returns
napi_ok with a buffer whose length and capacity are both 0 — the
element-size switch leaves element_size at 0 — rather than failing with an
invalid-argument or unsupported-type status. -/
theorem claim_C10 (buf0 : ByteBuf) (ty count : Nat) (backing : List Nat)
    (h : 11 ≤ ty) :
    aws_byte_buf_init_from_napi buf0 (HostValue.typedArray ty count backing) =
      (NapiStatus.ok,
        { buf0 with buffer := backing, len := 0, capacity := 0,
                    ptr := BufPtr.hostMem }) := by
  have hsz : s_element_size ty = 0 := by
    unfold s_element_size napi_int8_array napi_uint8_array
      napi_uint8_clamped_array napi_int16_array napi_uint16_array
      napi_int32_array napi_uint32_array napi_float32_array napi_float64_array
    rw [if_neg (by omega), if_neg (by omega), if_neg (by omega),
      if_neg (by omega)]
  simp [aws_byte_buf_init_from_napi, hsz]

/-- Witness for claim C10 at typed-array kind 11 with four backing bytes:
the conversion succeeds with a zero-length, zero-capacity buffer. -/
theorem claim_C10_witness :
    aws_byte_buf_init_from_napi bufZero (HostValue.typedArray 11 4 [7, 7, 7, 7]) =
      (NapiStatus.ok,
        { buffer := [7, 7, 7, 7], len := 0, capacity := 0,
          allocator := false, ptr := BufPtr.hostMem }) := by
  have h := claim_C10 bufZero 11 4 [7, 7, 7, 7] (by decide)
  simpa [bufZero] using h

/-- Claim C9 (evaluation at the failing input): the C of
aws_string_new_from_napi passes an uninitialized stack buffer to
aws_byte_buf_init_from_napi, and the borrow paths never assign the
allocator field; when the stack garbage in that field happens to be
non-null and the input is an ArrayBuffer, the aws_byte_buf_clean_up at
module.c line 168 frees the host value's borrowed backing memory,
violating the claimed invariant that cleanup never frees borrowed
memory. -/
theorem claim_C9_bug :
    (aws_string_new_from_napi
        { buffer := [], len := 0, capacity := 0, allocator := true,
          ptr := BufPtr.nullPtr }
        (HostValue.arrayBuffer [1, 2, 3])).cleanupFreedHostMem = true := by
  decide

/-- Claim C2: for every invocation of aws_napi_dispatch_threadsafe_function
on a live handle, on every outcome of the host call exactly one reference
on the threadsafe-function handle is released before the function returns
(the reference count drops by exactly one and nothing else of the handle
changes), and when the host call fails the returned status is that non-ok
call status. -/
theorem claim_C2 (env : CallbackEnv) (t : TsfnState) (this_ptr : Option HostValue)
    (call_outcome : NapiStatus) (h : 0 < t.refs) :
    ((aws_napi_dispatch_threadsafe_function env (some t) this_ptr
        call_outcome).tsfn = some { t with refs := t.refs - 1 }) ∧
    (call_outcome ≠ NapiStatus.ok →
      (aws_napi_dispatch_threadsafe_function env (some t) this_ptr
          call_outcome).status = call_outcome) := by
  have hz : ¬ t.refs = 0 := by omega
  cases call_outcome <;>
    simp [aws_napi_dispatch_threadsafe_function,
      napi_release_threadsafe_function, hz]

/-- Witness for claim C2 at a single-reference handle and a failing call:
the reference count drops to zero and the failure status is returned. -/
theorem claim_C2_witness :
    ((aws_napi_dispatch_threadsafe_function
        { pendingExn := none, engineErrorCode := 0, errorCode := NapiStatus.ok,
          errorMessage := [], functionStr := none }
        (some { refs := 1, unreffed := false, queued := 0 }) none
        NapiStatus.generic_failure).tsfn =
      some { refs := 0, unreffed := false, queued := 0 }) ∧
    ((aws_napi_dispatch_threadsafe_function
        { pendingExn := none, engineErrorCode := 0, errorCode := NapiStatus.ok,
          errorMessage := [], functionStr := none }
        (some { refs := 1, unreffed := false, queued := 0 }) none
        NapiStatus.generic_failure).status = NapiStatus.generic_failure) := by
  have h := claim_C2
    { pendingExn := none, engineErrorCode := 0, errorCode := NapiStatus.ok,
      errorMessage := [], functionStr := none }
    { refs := 1, unreffed := false, queued := 0 } none
    NapiStatus.generic_failure (by decide)
  exact ⟨h.1, h.2 (by decide)⟩

/-- Claim C3 counterexample: queue on a null threadsafe-function handle is
not a no-op returning success — aws_napi_queue_threadsafe_function has no
null check, the engine's acquire reports failure on the null handle, and
the surrounding AWS_NAPI_ENSURE turns that into a fatal assertion, so the
call terminates the process instead of returning napi_ok. -/
theorem claim_C3_counterexample :
    aws_napi_queue_threadsafe_function none = Outcome.fatal ∧
    aws_napi_queue_threadsafe_function none ≠
      Outcome.ret (NapiStatus.ok, none) := by
  decide

/-- Claim C3 amended: acquire, release, and unreference on a null
threadsafe-function handle perform no action and return the success status,
but queue on a null handle does not check for null and fatally asserts
inside its unguarded acquire. -/
theorem claim_C3_amended (mode : TsfnReleaseMode) :
    aws_napi_acquire_threadsafe_function none = (NapiStatus.ok, none) ∧
    aws_napi_release_threadsafe_function none mode = (NapiStatus.ok, none) ∧
    aws_napi_unref_threadsafe_function none = (NapiStatus.ok, none) ∧
    aws_napi_queue_threadsafe_function none = Outcome.fatal := by
  cases mode <;> exact ⟨rfl, rfl, rfl, rfl⟩

/-- Claim C4 counterexample: with the tracing variable set to 0 the
resolved allocator is the tracer wrapper aws_mem_tracer_new builds around
the default allocator, not the process default allocator itself; the same
holds for the out-of-range value 3 after its clamp to level 0.  This
falsifies the claim that level 0 (and an out-of-range value) make
aws_napi_get_allocator return the default allocator directly. -/
theorem claim_C4_counterexample :
    (aws_napi_get_allocator none (some 0)).alloc ≠ AwsAllocator.defaultAlloc ∧
    (aws_napi_get_allocator none (some 3)).alloc ≠ AwsAllocator.defaultAlloc := by
  decide

/-- Claim C4 amended: an unset (or unreadable) tracing variable yields the
process default allocator with no warning; whenever the variable is set,
the resolved allocator is a tracer wrapper around the default allocator
with 16 stack frames per allocation — level 0 gives a wrapper that traces
nothing, level 1 byte counting, level 2 stack capture — and a value outside
[0, 2] causes a warning on the standard error stream and is clamped to
level 0, likewise wrapped. -/
theorem claim_C4_amended (n : Int) (h : n < 0 ∨ 2 < n) :
    aws_napi_get_allocator none none =
      { alloc := AwsAllocator.defaultAlloc, warnedStderr := false } ∧
    aws_napi_get_allocator none (some 0) =
      { alloc := AwsAllocator.memTracer AwsAllocator.defaultAlloc 0 16,
        warnedStderr := false } ∧
    aws_napi_get_allocator none (some 1) =
      { alloc := AwsAllocator.memTracer AwsAllocator.defaultAlloc 1 16,
        warnedStderr := false } ∧
    aws_napi_get_allocator none (some 2) =
      { alloc := AwsAllocator.memTracer AwsAllocator.defaultAlloc 2 16,
        warnedStderr := false } ∧
    aws_napi_get_allocator none (some n) =
      { alloc := AwsAllocator.memTracer AwsAllocator.defaultAlloc 0 16,
        warnedStderr := true } := by
  refine ⟨by decide, by decide, by decide, by decide, ?_⟩
  simp [aws_napi_get_allocator, aws_mem_tracer_new, if_pos h, h]

/-- Witness for claim C4 amended at the out-of-range value 3: the warning
fires and the result is the level-0 tracer wrapper. -/
theorem claim_C4_witness :
    aws_napi_get_allocator none (some 3) =
      { alloc := AwsAllocator.memTracer AwsAllocator.defaultAlloc 0 16,
        warnedStderr := true } :=
  (claim_C4_amended 3 (by decide)).2.2.2.2

/-- Claim C5: module initialization while any of the event-loop group, host
resolver, or client bootstrap is already non-null hits one of the
AWS_FATAL_ASSERT(global == NULL) checks and terminates the process; and
teardown releases the client bootstrap first, then the host resolver, then
the event-loop group, and only after those three releases joins all
natively-spawned managed threads (for either value of the
allocator-is-default flag). -/
theorem claim_C5 (g : CrtGlobals)
    (h : g.elg = true ∨ g.resolver = true ∨ g.bootstrap = true) :
    napi_module_init_globals g = Outcome.fatal ∧
    ∀ d : Bool,
      ((s_napi_context_finalize d).indexOf TeardownEvent.releaseBootstrap <
        (s_napi_context_finalize d).indexOf TeardownEvent.releaseResolver) ∧
      ((s_napi_context_finalize d).indexOf TeardownEvent.releaseResolver <
        (s_napi_context_finalize d).indexOf TeardownEvent.releaseElg) ∧
      ((s_napi_context_finalize d).indexOf TeardownEvent.releaseElg <
        (s_napi_context_finalize d).indexOf TeardownEvent.joinManagedThreads) ∧
      ((s_napi_context_finalize d).indexOf TeardownEvent.joinManagedThreads <
        (s_napi_context_finalize d).length) := by
  constructor
  · obtain ⟨e, r, b⟩ := g
    cases e <;> cases r <;> cases b <;> simp_all [napi_module_init_globals]
  · intro d
    cases d <;> exact ⟨by decide, by decide, by decide, by decide⟩

/-- Witness for claim C5 with a live event-loop group: initialization is
fatal, and the teardown ordering holds with a non-default allocator. -/
theorem claim_C5_witness :
    napi_module_init_globals
      { elg := true, resolver := false, bootstrap := false } = Outcome.fatal ∧
    ((s_napi_context_finalize false).indexOf TeardownEvent.releaseBootstrap <
      (s_napi_context_finalize false).indexOf TeardownEvent.releaseResolver) := by
  have h := claim_C5 { elg := true, resolver := false, bootstrap := false }
    (Or.inl rfl)
  exact ⟨h.1, (h.2 false).1⟩

/-- A callback environment with a pending Error whose message and stack
extract fine, but where extracting the string form of the invoked function
failed (functionStr is none). -/
def cbEnvFnStrFailed : CallbackEnv :=
  { pendingExn := some
      { is_error := true, message := some [109], stack := some [115],
        coerced := some [99] },
    engineErrorCode := 0, errorCode := NapiStatus.ok, errorMessage := [],
    functionStr := none }

/-- Claim C6 counterexample: in cbEnvFnStrFailed the extraction of the
function's textual form failed, yet s_handle_failed_callback logs no record
of that failure and does not stop — it goes on to extract and log the
exception's message and stack trace.  This falsifies the claim that a
failed extraction of any of the three items is itself logged and stops
further extraction for that event. -/
theorem claim_C6_counterexample :
    cbEnvFnStrFailed.functionStr = none ∧
    (s_handle_failed_callback cbEnvFnStrFailed).1 =
      [LogEvent.errorMsg [109], LogEvent.stackTrace [115]] := by
  decide

/-- Claim C6 amended: when a dispatched host callable fails with a pending
host-environment exception, the handler captures and clears the exception;
the textual form of the invoked function is logged only when its extraction
succeeds — a failed function-string extraction is silently skipped and does
not stop further extraction; a failed extraction of the Error's message, of
its stack trace, or of the string form of a non-Error exception is logged
and stops further extraction for that event without crashing; when no
exception is pending, the handler instead logs the engine error code, the
error code and the error message of the engine's extended error info. -/
theorem claim_C6_amended (env : CallbackEnv) (e : PendingExn) :
    (env.pendingExn = none →
      (s_handle_failed_callback env).1 =
        [LogEvent.extendedError env.engineErrorCode env.errorCode
          env.errorMessage]) ∧
    (env.pendingExn = some e →
      ((s_handle_failed_callback env).2.pendingExn = none ∧
      (env.functionStr = none → callingLog env = []) ∧
      (∀ f, env.functionStr = some f → callingLog env = [LogEvent.calling f]) ∧
      (e.is_error = true → e.message = none →
        (s_handle_failed_callback env).1 =
          callingLog env ++ [LogEvent.msgExtractFailed]) ∧
      (∀ m, e.is_error = true → e.message = some m → e.stack = none →
        (s_handle_failed_callback env).1 =
          callingLog env ++ [LogEvent.errorMsg m, LogEvent.stackExtractFailed]) ∧
      (∀ m st, e.is_error = true → e.message = some m → e.stack = some st →
        (s_handle_failed_callback env).1 =
          callingLog env ++ [LogEvent.errorMsg m, LogEvent.stackTrace st]) ∧
      (e.is_error = false → e.coerced = none →
        (s_handle_failed_callback env).1 =
          callingLog env ++ [LogEvent.coercedExtractFailed]) ∧
      (∀ c, e.is_error = false → e.coerced = some c →
        (s_handle_failed_callback env).1 =
          callingLog env ++ [LogEvent.errorMsg c]))) := by
  constructor
  · intro h
    simp [s_handle_failed_callback, h]
  · intro h
    obtain ⟨ie, msg, stk, co⟩ := e
    cases ie <;> cases msg <;> cases stk <;> cases co <;>
      simp_all [s_handle_failed_callback, callingLog]

/-- A callback environment with a pending Error whose message extraction
failed but whose function-string extraction succeeded. -/
def cbEnvMsgFailed : CallbackEnv :=
  { pendingExn := some
      { is_error := true, message := none, stack := some [115],
        coerced := some [99] },
    engineErrorCode := 0, errorCode := NapiStatus.ok, errorMessage := [],
    functionStr := some [102] }

/-- Witness for claim C6 amended at cbEnvMsgFailed: the function string is
logged, the failed message extraction is logged, and extraction stops. -/
theorem claim_C6_witness :
    (s_handle_failed_callback cbEnvMsgFailed).1 =
      [LogEvent.calling [102], LogEvent.msgExtractFailed] := by
  have h := ((claim_C6_amended cbEnvMsgFailed
      { is_error := true, message := none, stack := some [115],
        coerced := some [99] }).2 rfl).2.2.2.1 rfl rfl
  simpa [cbEnvMsgFailed, callingLog] using h
